import Mathlib

/-!
Verification development for the claimopsagent data-access bridge.

The definitions below are a shallow embedding of the Python source under
`app/dataverse/` (mcp_client.py, client.py, mcp_runner.py).  Decoded JSON
payloads are modelled by `JValue`, records by association lists, and
stateful code by explicit state passing.  External effects (Azure credential
acquisition, HTTP round trips, the event-loop future) are modelled as
explicit parameters describing the outcome of each external call.
-/

set_option maxRecDepth 8192

namespace ClaimOps

/-- A JSON value as produced by `json.loads`: null, booleans, integers,
strings, arrays and objects.  Objects are association lists with the
first occurrence of a key authoritative (decoded Python dicts have unique
keys).  Floats do not occur in the payloads the bridge inspects. -/
inductive JValue where
  | null : JValue
  | bool : Bool → JValue
  | int : Int → JValue
  | str : String → JValue
  | arr : List JValue → JValue
  | obj : List (String × JValue) → JValue

/-- Lookup of a key in a decoded JSON object (Python `parsed[k]` /
`k in parsed`), reading the first occurrence. -/
def lookupField : List (String × JValue) → String → Option JValue
  | [], _ => none
  | (k, v) :: rest, key => if k = key then some v else lookupField rest key

/-- `getWrapped fields k` is the array wrapped under key `k`, when `k` is
present and its value is an array; this mirrors the guard
`k in parsed and isinstance(parsed[k], list)` in
`DataverseMCPClient._call_tool` (mcp_client.py lines 401-412). -/
def getWrapped (fields : List (String × JValue)) (k : String) : Option (List JValue) :=
  match lookupField fields k with
  | some (JValue.arr xs) => some xs
  | _ => none

/-- Outcome of the result-normalization step of `_call_tool`: a list of
records, a single record, or a raised exception.  The `raised` form exists
so that claims about exceptions escaping the normalization can be stated;
the translation below shows that no branch of the normalization produces
it. -/
inductive NormResult where
  | list : List JValue → NormResult
  | record : JValue → NormResult
  | raised : String → NormResult

/-- Shallow embedding of the result normalization of
`DataverseMCPClient._call_tool` (mcp_client.py lines 392-435), applied to
the decoded reply `parsed`.

With a list expectation: a bare array is used as-is; an object is probed
for the wrapper keys `value`, `results`, `items` (in that order, each
accepted only when its value is an array); an object carrying an `error`
key is only logged (lines 414-417) and control falls through to
`return []`; anything else is an empty list.  With a single-record
expectation: an object is returned as-is, a non-empty array yields its
first element, and anything else yields the empty record. -/
def callToolNormalize (expectList : Bool) (parsed : JValue) : NormResult :=
  if expectList then
    match parsed with
    | JValue.arr xs => NormResult.list xs
    | JValue.obj fields =>
      match getWrapped fields "value" with
      | some xs => NormResult.list xs
      | none =>
        match getWrapped fields "results" with
        | some xs => NormResult.list xs
        | none =>
          match getWrapped fields "items" with
          | some xs => NormResult.list xs
          | none => NormResult.list []
    | _ => NormResult.list []
  else
    match parsed with
    | JValue.obj fields => NormResult.record (JValue.obj fields)
    | JValue.arr (x :: _) => NormResult.record x
    | _ => NormResult.record (JValue.obj [])

end ClaimOps

namespace ClaimOps

/-- C5: the list-expectation normalization maps the bare array `L`,
`\x7b"value": L\x7d`, `\x7b"results": L\x7d` and `\x7b"items": L\x7d` to the
identical ordered list `L`. -/
theorem c5_wrapper_shapes_normalize_equal (L : List JValue) :
    callToolNormalize true (JValue.arr L) = NormResult.list L ∧
    callToolNormalize true (JValue.obj [("value", JValue.arr L)]) = NormResult.list L ∧
    callToolNormalize true (JValue.obj [("results", JValue.arr L)]) = NormResult.list L ∧
    callToolNormalize true (JValue.obj [("items", JValue.arr L)]) = NormResult.list L := by
  refine ⟨rfl, ?_, ?_, ?_⟩ <;> simp [callToolNormalize, getWrapped, lookupField]

/-- C1, counterexample: a list-expectation reply that is an object with an
`error` key (and no recognized array wrapper) is normalized to the empty
list — it is not surfaced as an exception, contradicting the claim that an
empty list is never returned for such a reply. -/
theorem c1_counterexample :
    callToolNormalize true (JValue.obj [("error", JValue.str "remote failure")]) =
      NormResult.list [] := by
  rfl

/-- C1, amended: for every list-expectation reply decoded to an object that
contains an `error` key and none of the recognized array wrappers, the
normalization returns the empty list (the error is only logged; no
exception is raised). -/
theorem c1_error_reply_normalizes_to_empty_list (fields : List (String × JValue))
    (_he : (lookupField fields "error").isSome = true)
    (hv : getWrapped fields "value" = none)
    (hr : getWrapped fields "results" = none)
    (hi : getWrapped fields "items" = none) :
    callToolNormalize true (JValue.obj fields) = NormResult.list [] := by
  simp [callToolNormalize, hv, hr, hi]

/-- C1, witness for the amended statement on a concrete error reply. -/
theorem c1_error_reply_witness :
    callToolNormalize true (JValue.obj [("error", JValue.str "boom")]) =
      NormResult.list [] :=
  c1_error_reply_normalizes_to_empty_list
    [("error", JValue.str "boom")] rfl rfl rfl rfl

/-! ## Credential resolution (`DataverseClient._get_token`, client.py lines 17-55)

`_get_token` consults, in order: the token stored on the client
(`self.token`, set either by the caller at construction or by a previous
automatic resolution), the `DefaultAzureCredential` chain, and an
interactive browser fallback; when everything fails it returns the string
`"mock_token"`.  The outcomes of the two external credential calls are
passed in explicitly. -/

/-- Which credential object `self.credential` currently holds. -/
inductive CredKind where
  | default : CredKind
  | interactive : CredKind
deriving Repr, DecidableEq

/-- Mutable fields of `DataverseClient` that `_get_token` reads and
writes: the base URL, the stored token, its expiry (`expires_on`, seconds),
and the cached credential object. -/
structure ClientState where
  baseUrl : String
  token : Option String
  tokenExpiry : Int
  credential : Option CredKind
deriving Repr, DecidableEq

/-- Outcome of `self.credential.get_token(scope)` on the primary
(`DefaultAzureCredential`) attempt: a token with its `expires_on`, a
`ClientAuthenticationError`, or any other exception. -/
inductive CredOutcome where
  | success : String → Int → CredOutcome
  | clientAuthError : CredOutcome
  | otherError : CredOutcome
deriving Repr, DecidableEq

/-- Result of a credential resolution.  The Python `_get_token` always
returns a string; the `authError` form exists so that claims about a raised
`AuthError` can be stated, and the translation below shows that no branch
produces it. -/
inductive TokenResult where
  | token : String → TokenResult
  | authError : TokenResult
deriving Repr, DecidableEq

/-- Shallow embedding of `DataverseClient._get_token` (client.py lines
17-55).  `primary` is the outcome of the `DefaultAzureCredential` attempt
and `interactive` the outcome of the `InteractiveBrowserCredential`
fallback (`some (tok, exp)` on success, `none` when it raises).

Control flow of the source: line 20 returns any stored `self.token`
unconditionally, so the expiry comparison on lines 22-23 is unreachable
(it is guarded by the same `self.token` test plus more); a successful
automatic resolution stores the token and expiry; a
`ClientAuthenticationError` falls back to the interactive credential; all
remaining paths — including the `"dummy" in self.base_url` branch on lines
51-53 and the final line 55 — return `"mock_token"`.  `now` is the value
`time.time()` would have returned; the source never reads it on a live
path. -/
def getToken (st : ClientState) (now : Int) (primary : CredOutcome)
    (interactive : Option (String × Int)) : TokenResult × ClientState :=
  match st.token with
  | some t => (TokenResult.token t, st)
  | none =>
    let _ := now
    let afterDefault := { st with credential := some (st.credential.getD CredKind.default) }
    match primary with
    | CredOutcome.success tok exp =>
      (TokenResult.token tok, { afterDefault with token := some tok, tokenExpiry := exp })
    | CredOutcome.clientAuthError =>
      match interactive with
      | some (tok, exp) =>
        (TokenResult.token tok,
          { afterDefault with token := some tok, tokenExpiry := exp,
                              credential := some CredKind.interactive })
      | none =>
        (TokenResult.token "mock_token",
          { afterDefault with credential := some CredKind.interactive })
    | CredOutcome.otherError =>
      (TokenResult.token "mock_token", afterDefault)

/-- C8: when the caller's context supplied a token explicitly (it is stored
in `self.token` at construction), `_get_token` returns it unconditionally —
no expiry check, no credential chain, and the state is untouched. -/
theorem c8_explicit_token_unconditional (st : ClientState) (now : Int)
    (primary : CredOutcome) (interactive : Option (String × Int)) (t : String)
    (h : st.token = some t) :
    getToken st now primary interactive = (TokenResult.token t, st) := by
  simp [getToken, h]

/-- C8, witness: a client holding the explicit token `"msal-token"` gets it
back unchanged even at a time far past any expiry and with both credential
stages failing. -/
theorem c8_explicit_token_witness :
    getToken { baseUrl := "https://org.crm.dynamics.com", token := some "msal-token",
               tokenExpiry := 0, credential := none }
        1000000 CredOutcome.clientAuthError none =
      (TokenResult.token "msal-token",
        { baseUrl := "https://org.crm.dynamics.com", token := some "msal-token",
          tokenExpiry := 0, credential := none }) :=
  c8_explicit_token_unconditional _ 1000000 CredOutcome.clientAuthError none "msal-token" rfl

/-- C2: the code returns a cached automatic token even after its expiry has
passed.  A first call resolves through the default chain and caches a token
expiring at time 1000; a second call at time 2000 — strictly after the
expiry — still returns the cached token instead of restarting the fallback
chain, because line 20 of client.py returns any stored token before the
(unreachable) expiry comparison on line 22. -/
theorem c2_expired_cached_token_returned :
    (let st1 := (getToken
        { baseUrl := "https://org.crm.dynamics.com", token := none,
          tokenExpiry := 0, credential := none }
        500 (CredOutcome.success "tok-a" 1000) none).2
     st1.token = some "tok-a" ∧ st1.tokenExpiry = 1000 ∧
       (getToken st1 2000 CredOutcome.clientAuthError none).1 =
         TokenResult.token "tok-a") := by
  exact ⟨rfl, rfl, rfl⟩

/-- C3, counterexample: with no stored token, a production endpoint (no
`"dummy"` substring in the URL), a failing default chain and a failing
interactive fallback — i.e. every stage exhausted — `_get_token` returns
the sentinel `"mock_token"` rather than failing with `AuthError`. -/
theorem c3_counterexample :
    (getToken
        { baseUrl := "https://org.crm.dynamics.com", token := none,
          tokenExpiry := 0, credential := none }
        0 CredOutcome.clientAuthError none).1 = TokenResult.token "mock_token" := by
  rfl

/-- C3, amended: credential resolution never fails — no execution of
`_get_token` produces `AuthError`; and whenever the stored token is absent
and both the default chain and the interactive fallback fail, the sentinel
`"mock_token"` is returned, for production and non-production endpoints
alike. -/
theorem c3_resolution_never_fails (st : ClientState) (now : Int)
    (primary : CredOutcome) (interactive : Option (String × Int)) :
    (getToken st now primary interactive).1 ≠ TokenResult.authError ∧
    (st.token = none →
      (primary = CredOutcome.clientAuthError ∨ primary = CredOutcome.otherError) →
      (primary = CredOutcome.clientAuthError → interactive = none) →
      (getToken st now primary interactive).1 = TokenResult.token "mock_token") := by
  obtain ⟨burl, tok, exp, cred⟩ := st
  constructor
  · cases tok with
    | some t => simp [getToken]
    | none =>
      cases primary with
      | success a b => simp [getToken]
      | clientAuthError =>
        cases interactive with
        | some p => obtain ⟨a, b⟩ := p; simp [getToken]
        | none => simp [getToken]
      | otherError => simp [getToken]
  · intro htok hfail hint
    subst htok
    rcases hfail with h | h <;> subst h
    · rw [hint rfl]; rfl
    · rfl

/-- C3, witness for the amended statement: exhaustion on a production
endpoint yields the mock token (and in particular not `AuthError`). -/
theorem c3_resolution_never_fails_witness :
    (getToken
        { baseUrl := "https://prod.crm.dynamics.com", token := none,
          tokenExpiry := 0, credential := none }
        42 CredOutcome.otherError none).1 = TokenResult.token "mock_token" :=
  (c3_resolution_never_fails
      { baseUrl := "https://prod.crm.dynamics.com", token := none,
        tokenExpiry := 0, credential := none }
      42 CredOutcome.otherError none).2 rfl (Or.inr rfl)
    (fun h => by cases h)

/-! ## Status/type code mapping (`DataverseClient._map_status_codes`,
client.py lines 89-105)

A result row is a decoded JSON object.  `_map_status_codes` rewrites the
`smvs_claimstatus` field through the `CLAIM_STATUS` table and the
`smvs_claim_type` field through the `CLAIM_TYPE` table (keeping the raw
code in `smvs_claim_type_code`), touching a field only when its current
value is an integer (`isinstance(code, int)`, which in Python also accepts
booleans).  The two lookup tables live in `app/core/constants.py`, which
is not part of the sources; the mapping itself is translated from
client.py and is stated generically over the tables. -/

/-- A result row: a decoded JSON object. -/
abbrev Record := List (String × JValue)

/-- `record[key] = v` on a Python dict: overwrite the first occurrence in
place, or append the new key. -/
def setField : Record → String → JValue → Record
  | [], key, v => [(key, v)]
  | (k, w) :: rest, key, v =>
    if k = key then (k, v) :: rest else (k, w) :: setField rest key v

/-- The integer a JSON value carries for Python's `isinstance(code, int)`:
integers are themselves, and booleans count as 1/0 (Python `bool` is a
subclass of `int`); everything else is not an integer. -/
def intOfJValue : JValue → Option Int
  | JValue.int n => some n
  | JValue.bool b => some (if b then 1 else 0)
  | _ => none

/-- `table.get(c)` on a code→label dict (keys are unique). -/
def lookupCode (table : List (Int × String)) (c : Int) : Option String :=
  (table.find? (fun p => p.1 == c)).map Prod.snd

/-- The `smvs_claimstatus` step of `_map_status_codes` (client.py lines
93-97): when the field holds an integer, replace it by
`CLAIM_STATUS.get(code, code)` — the registered label, or the original
value when the code is unregistered. -/
def stepStatus (cs : List (Int × String)) (r : Record) : Record :=
  match lookupField r "smvs_claimstatus" with
  | some v =>
    match intOfJValue v with
    | some c =>
      setField r "smvs_claimstatus"
        (match lookupCode cs c with
         | some label => JValue.str label
         | none => v)
    | none => r
  | none => r

/-- The `smvs_claim_type` step of `_map_status_codes` (client.py lines
99-103): when the field holds an integer, keep the raw code in
`smvs_claim_type_code` and replace the field by
`CLAIM_TYPE.get(code, code)`. -/
def stepType (ct : List (Int × String)) (r : Record) : Record :=
  match lookupField r "smvs_claim_type" with
  | some v =>
    match intOfJValue v with
    | some c =>
      setField (setField r "smvs_claim_type_code" v) "smvs_claim_type"
        (match lookupCode ct c with
         | some label => JValue.str label
         | none => v)
    | none => r
  | none => r

/-- Shallow embedding of `DataverseClient._map_status_codes`,
parameterized by the status and type tables. -/
def mapStatusCodesWith (cs ct : List (Int × String)) (r : Record) : Record :=
  stepType ct (stepStatus cs r)

theorem lookupField_setField_self (r : Record) (k : String) (v : JValue) :
    lookupField (setField r k v) k = some v := by
  induction r with
  | nil => simp [setField, lookupField]
  | cons p rest ih =>
    obtain ⟨k1, w⟩ := p
    by_cases h : k1 = k
    · simp [setField, lookupField, h]
    · simp [setField, lookupField, h, ih]

theorem lookupField_setField_ne (r : Record) (k k2 : String) (v : JValue)
    (h : k ≠ k2) :
    lookupField (setField r k v) k2 = lookupField r k2 := by
  induction r with
  | nil => simp [setField, lookupField, h]
  | cons p rest ih =>
    obtain ⟨k1, w⟩ := p
    by_cases h1 : k1 = k
    · subst h1
      simp [setField, lookupField, h]
    · by_cases h2 : k1 = k2
      · simp [setField, lookupField, h1, h2, Ne.symm h]
      · simp [setField, lookupField, h1, h2, ih]

theorem setField_self (r : Record) (k : String) (v : JValue)
    (h : lookupField r k = some v) : setField r k v = r := by
  induction r with
  | nil => simp [lookupField] at h
  | cons p rest ih =>
    obtain ⟨k1, w⟩ := p
    by_cases h1 : k1 = k
    · simp [lookupField, h1] at h
      simp [setField, h1, h]
    · simp [lookupField, h1] at h
      simp [setField, h1, ih h]

/-- `stepStatus` reads and writes only the `smvs_claimstatus` key. -/
theorem lookupField_stepStatus_other (cs : List (Int × String)) (r : Record)
    (k : String) (h : k ≠ "smvs_claimstatus") :
    lookupField (stepStatus cs r) k = lookupField r k := by
  cases hv : lookupField r "smvs_claimstatus" with
  | none => simp [stepStatus, hv]
  | some v =>
    cases hc : intOfJValue v with
    | none => simp [stepStatus, hv, hc]
    | some c =>
      simp only [stepStatus, hv, hc]
      exact lookupField_setField_ne r "smvs_claimstatus" k _ (Ne.symm h)

/-- `stepType` reads and writes only the `smvs_claim_type` and
`smvs_claim_type_code` keys. -/
theorem lookupField_stepType_other (ct : List (Int × String)) (r : Record)
    (k : String) (h1 : k ≠ "smvs_claim_type") (h2 : k ≠ "smvs_claim_type_code") :
    lookupField (stepType ct r) k = lookupField r k := by
  cases hv : lookupField r "smvs_claim_type" with
  | none => simp [stepType, hv]
  | some v =>
    cases hc : intOfJValue v with
    | none => simp [stepType, hv, hc]
    | some c =>
      simp only [stepType, hv, hc]
      rw [lookupField_setField_ne _ "smvs_claim_type" k _ (Ne.symm h1),
        lookupField_setField_ne _ "smvs_claim_type_code" k _ (Ne.symm h2)]

/-- After `stepStatus`, the status field never holds a registered integer
code: it is either non-integer (a mapped label, or untouched) or an
unregistered code. -/
theorem stepStatus_post (cs : List (Int × String)) (r : Record) (v : JValue)
    (hv : lookupField (stepStatus cs r) "smvs_claimstatus" = some v) :
    intOfJValue v = none ∨
      ∃ c, intOfJValue v = some c ∧ lookupCode cs c = none := by
  cases hv0 : lookupField r "smvs_claimstatus" with
  | none =>
    simp only [stepStatus, hv0] at hv
    exact absurd hv (by simp)
  | some w =>
    cases hc : intOfJValue w with
    | none =>
      simp only [stepStatus, hv0, hc] at hv
      obtain rfl : w = v := Option.some.inj hv
      exact Or.inl hc
    | some c =>
      simp only [stepStatus, hv0, hc, lookupField_setField_self,
        Option.some.injEq] at hv
      cases hcode : lookupCode cs c with
      | some label =>
        simp only [hcode] at hv
        subst hv
        exact Or.inl rfl
      | none =>
        simp only [hcode] at hv
        subst hv
        exact Or.inr ⟨c, hc, hcode⟩

/-- A record whose status field is non-integer or an unregistered code is
a fixed point of `stepStatus`. -/
theorem stepStatus_fixed (cs : List (Int × String)) (r : Record)
    (h : ∀ v, lookupField r "smvs_claimstatus" = some v →
      intOfJValue v = none ∨
        ∃ c, intOfJValue v = some c ∧ lookupCode cs c = none) :
    stepStatus cs r = r := by
  cases hv : lookupField r "smvs_claimstatus" with
  | none => simp [stepStatus, hv]
  | some v =>
    cases hc : intOfJValue v with
    | none => simp [stepStatus, hv, hc]
    | some c =>
      rcases h v hv with h1 | ⟨c2, hc2, hcode⟩
      · exact absurd (hc.symm.trans h1) (by simp)
      · obtain rfl : c = c2 := Option.some.inj (hc.symm.trans hc2)
        simp only [stepStatus, hv, hc, hcode]
        exact setField_self r _ v hv

/-- After `stepType`, the type field is either non-integer or an
unregistered code whose raw value is also stored in
`smvs_claim_type_code`. -/
theorem stepType_post (ct : List (Int × String)) (r : Record) (v : JValue)
    (hv : lookupField (stepType ct r) "smvs_claim_type" = some v) :
    intOfJValue v = none ∨
      ∃ c, intOfJValue v = some c ∧ lookupCode ct c = none ∧
        lookupField (stepType ct r) "smvs_claim_type_code" = some v := by
  cases hv0 : lookupField r "smvs_claim_type" with
  | none =>
    simp only [stepType, hv0] at hv
    exact absurd hv (by simp)
  | some w =>
    cases hc : intOfJValue w with
    | none =>
      simp only [stepType, hv0, hc] at hv
      obtain rfl : w = v := Option.some.inj hv
      exact Or.inl hc
    | some c =>
      simp only [stepType, hv0, hc, lookupField_setField_self,
        Option.some.injEq] at hv
      cases hcode : lookupCode ct c with
      | some label =>
        simp only [hcode] at hv
        subst hv
        exact Or.inl rfl
      | none =>
        simp only [hcode] at hv
        subst hv
        refine Or.inr ⟨c, hc, hcode, ?_⟩
        simp only [stepType, hv0, hc, hcode]
        rw [lookupField_setField_ne _ "smvs_claim_type" "smvs_claim_type_code" _
          (by decide), lookupField_setField_self]

/-- A record whose type field is non-integer, or an unregistered code
duplicated into `smvs_claim_type_code`, is a fixed point of `stepType`. -/
theorem stepType_fixed (ct : List (Int × String)) (r : Record)
    (h : ∀ v, lookupField r "smvs_claim_type" = some v →
      intOfJValue v = none ∨
        ∃ c, intOfJValue v = some c ∧ lookupCode ct c = none ∧
          lookupField r "smvs_claim_type_code" = some v) :
    stepType ct r = r := by
  cases hv : lookupField r "smvs_claim_type" with
  | none => simp [stepType, hv]
  | some v =>
    cases hc : intOfJValue v with
    | none => simp [stepType, hv, hc]
    | some c =>
      rcases h v hv with h1 | ⟨c2, hc2, hcode, hdup⟩
      · exact absurd (hc.symm.trans h1) (by simp)
      · obtain rfl : c = c2 := Option.some.inj (hc.symm.trans hc2)
        simp only [stepType, hv, hc, hcode]
        rw [setField_self r _ v hdup, setField_self r _ v hv]

/-- C10: `_map_status_codes` is idempotent — applying it twice to any
record, with any status and type tables, equals applying it once: a
registered code becomes a string label (not an integer, hence untouched on
the second pass), and an unregistered code is rewritten to itself. -/
theorem c10_map_status_codes_idempotent (cs ct : List (Int × String)) (r : Record) :
    mapStatusCodesWith cs ct (mapStatusCodesWith cs ct r) =
      mapStatusCodesWith cs ct r := by
  unfold mapStatusCodesWith
  have hx : stepStatus cs (stepType ct (stepStatus cs r)) =
      stepType ct (stepStatus cs r) := by
    apply stepStatus_fixed
    intro v hv
    rw [lookupField_stepType_other ct _ "smvs_claimstatus" (by decide) (by decide)] at hv
    exact stepStatus_post cs r v hv
  rw [hx]
  exact stepType_fixed ct _ (fun v hv => stepType_post ct _ v hv)

/-! ## Label→code filter rewriting (`DataverseClient.get_historical_claims`,
client.py lines 118-135)

Before submission, `get_historical_claims` replaces every occurrence of
`value='<label>'` / `value="<label>"` in the filter by the corresponding
integer code, iterating over `name_to_id = \x7bv: k for k, v in
CLAIM_TYPE.items()\x7d` — the claim-type table only; `CLAIM_STATUS` is not
consulted for filter rewriting.  Returned rows then pass through
`_map_status_codes`. -/

/-- One pass of Python `str.replace` on character lists, with fuel: the
fuel is the length of the subject, which bounds the number of steps since
each step consumes at least one character for a non-empty pattern.
Occurrences are replaced left to right, non-overlapping.  (The source only
replaces non-empty patterns; for an empty pattern this model is the
identity rather than Python's insert-everywhere behaviour.) -/
def replaceCharsFuel : Nat → List Char → List Char → List Char → List Char
  | 0, s, _, _ => s
  | _ + 1, [], _, _ => []
  | fuel + 1, c :: rest, pat, repl =>
    if pat ≠ [] ∧ pat.isPrefixOf (c :: rest) then
      repl ++ replaceCharsFuel fuel ((c :: rest).drop pat.length) pat repl
    else
      c :: replaceCharsFuel fuel rest pat repl

/-- Python `s.replace(pat, repl)` for the non-empty patterns the source
uses. -/
def strReplace (s pat repl : String) : String :=
  String.mk (replaceCharsFuel s.data.length s.data pat.data repl.data)

/-- Modelled from the spec: the status code→label table (`CLAIM_STATUS` in
the missing module `app/core/constants.py`).  Codes and labels follow the
repository's `CLAIM_STATUS_CODES` table in `app/models/claim.py`; the
spec's example label "Approved" is a status label. -/
def CLAIM_STATUS : List (Int × String) :=
  [(153940000, "Draft"), (153940001, "Submitted"), (153940002, "Processing"),
   (153940003, "Approved"), (153940004, "Rejected"), (153940005, "Paid"),
   (153940006, "Failed"), (153940007, "Pending"), (153940008, "On Hold")]

/-- Modelled from the spec: the claim-type code→label table (`CLAIM_TYPE`
in the missing module `app/core/constants.py`).  The pair 916310002 ↔
"NCPDP Claim" is documented in the prompt text of
`app/chains/prediction.py`; the remaining entries are representative.
Labels are pairwise distinct, as in an enum table. -/
def CLAIM_TYPE : List (Int × String) :=
  [(916310000, "Professional Claim"), (916310001, "Institutional Claim"),
   (916310002, "NCPDP Claim")]

/-- The items of `name_to_id = \x7bv: k for k, v in CLAIM_TYPE.items()\x7d`
(client.py line 126) in iteration order; for a table with pairwise
distinct labels the dict comprehension keeps every pair, in table order. -/
def nameToIdItems (table : List (Int × String)) : List (String × Int) :=
  table.map (fun p => (p.2, p.1))

/-- One iteration of the rewriting loop (client.py lines 127-131): the
single-quoted and then the double-quoted form of `value=<label>` are
replaced by the code.  The `in` membership checks guarding each `replace`
in the source do not change the result, since replacing an absent pattern
is the identity. -/
def rewriteLabel (filterXml : String) (label : String) (code : Int) : String :=
  let f1 := strReplace filterXml ("value='" ++ label ++ "'")
    ("value='" ++ toString code ++ "'")
  strReplace f1 ("value=\"" ++ label ++ "\"")
    ("value=\"" ++ toString code ++ "\"")

/-- The full label→code filter rewrite of `get_historical_claims`. -/
def rewriteFilter (table : List (Int × String)) (filterXml : String) : String :=
  (nameToIdItems table).foldl (fun f p => rewriteLabel f p.1 p.2) filterXml

/-- A FetchXML equality condition with a single-quoted value, the shape
the rewriting loop looks for. -/
def conditionSq (attr v : String) : String :=
  "<filter type=\"and\"><condition attribute=\"" ++ attr ++
    "\" operator=\"eq\" value='" ++ v ++ "' /></filter>"

/-- A FetchXML equality condition with a double-quoted value. -/
def conditionDq (attr v : String) : String :=
  "<filter type=\"and\"><condition attribute=\"" ++ attr ++
    "\" operator=\"eq\" value=\"" ++ v ++ "\" /></filter>"

/-- C6, counterexample: "Approved" is a registered status label (code
153940003 in the status table), yet a filter referencing it is submitted
unchanged — the rewriting loop consults only the claim-type table, so the
label is not rewritten to its code before submission. -/
theorem c6_counterexample :
    lookupCode CLAIM_STATUS 153940003 = some "Approved" ∧
    rewriteFilter CLAIM_TYPE (conditionSq "smvs_claimstatus" "Approved") =
      conditionSq "smvs_claimstatus" "Approved" ∧
    conditionSq "smvs_claimstatus" "Approved" ≠
      conditionSq "smvs_claimstatus" (toString (153940003 : Int)) := by
  refine ⟨rfl, rfl, ?_⟩
  decide

/-- C6, amended: for every label registered in the claim-type table, the
round trip holds — the filter rewrite replaces the quoted label by its
integer code (in both quoting styles), and mapping a returned row whose
`smvs_claim_type` holds that code yields the original label byte-for-byte;
a label with no registered claim-type code (whether unknown, or a status
label such as "Approved") is passed through unchanged. -/
theorem c6_type_label_round_trip :
    (∀ p ∈ CLAIM_TYPE,
      rewriteFilter CLAIM_TYPE (conditionSq "smvs_claim_type" p.2) =
        conditionSq "smvs_claim_type" (toString p.1) ∧
      rewriteFilter CLAIM_TYPE (conditionDq "smvs_claim_type" p.2) =
        conditionDq "smvs_claim_type" (toString p.1) ∧
      lookupField
          (mapStatusCodesWith CLAIM_STATUS CLAIM_TYPE
            [("smvs_claim_type", JValue.int p.1)])
          "smvs_claim_type" = some (JValue.str p.2)) ∧
    rewriteFilter CLAIM_TYPE (conditionSq "smvs_claim_type" "Dental Claim") =
      conditionSq "smvs_claim_type" "Dental Claim" := by
  constructor
  · intro p hp
    simp only [CLAIM_TYPE, List.mem_cons, List.not_mem_nil, or_false] at hp
    rcases hp with rfl | rfl | rfl <;> exact ⟨rfl, rfl, rfl⟩
  · rfl

/-- C6, witness for the amended statement at the documented pair
916310002 ↔ "NCPDP Claim". -/
theorem c6_type_label_round_trip_witness :
    rewriteFilter CLAIM_TYPE (conditionSq "smvs_claim_type" "NCPDP Claim") =
      conditionSq "smvs_claim_type" (toString (916310002 : Int)) ∧
    lookupField
        (mapStatusCodesWith CLAIM_STATUS CLAIM_TYPE
          [("smvs_claim_type", JValue.int 916310002)])
        "smvs_claim_type" = some (JValue.str "NCPDP Claim") :=
  ⟨(c6_type_label_round_trip.1 (916310002, "NCPDP Claim") (by decide)).1,
   (c6_type_label_round_trip.1 (916310002, "NCPDP Claim") (by decide)).2.2⟩

/-! ## Facade read/update paths and the mock-mode flag (client.py)

`DataverseClient.update_service_line` and `update_claim` short-circuit on
`settings.MOCK_MODE` before touching the network; the read path
(`fetchxml_query`, reached from `get_claim_by_id`,
`get_historical_claims`, `get_service_lines_by_claim`) has no mock-mode
branch at all.  Operations are embedded as result plus the list of
transport calls they issue. -/

/-- An outward transport call issued while an operation runs. -/
inductive Effect where
  | httpGet : String → Effect
  | httpPatch : String → Effect
deriving Repr, DecidableEq

/-- Configuration and remote behaviour visible to a `DataverseClient`
operation: the `settings.MOCK_MODE` flag, whether the HTTP call succeeds
(`response.raise_for_status()` passes), and the decoded response body. -/
structure HttpEnv where
  mockMode : Bool
  httpOk : Bool
  httpBody : JValue

/-- Shallow embedding of `DataverseClient.fetchxml_query` (client.py lines
66-86): issues `requests.get` against `<base_url>/api/data/v9.2/<entity>`
unconditionally — this read path has no mock-mode branch — then returns
`response.json().get("value", [])`, propagating an exception on a non-2xx
status.  The FetchXML document rides in the request parameters and does
not influence the branch structure; a `value` field that is not an array
is not iterable as records and is modelled as the empty list. -/
def fetchxml_query (env : HttpEnv) (baseUrl fetchxml entity : String) :
    Except String (List JValue) × List Effect :=
  let _ := fetchxml
  let url := baseUrl ++ "/api/data/v9.2/" ++ entity
  if env.httpOk then
    (Except.ok
      (match env.httpBody with
       | JValue.obj fields =>
         match lookupField fields "value" with
         | some (JValue.arr xs) => xs
         | _ => []
       | _ => []),
     [Effect.httpGet url])
  else
    (Except.error "HTTPError", [Effect.httpGet url])

/-- `_map_status_codes` lifted to a decoded row; the source only ever
receives decoded JSON objects, other shapes pass through. -/
def mapRow (r : JValue) : JValue :=
  match r with
  | JValue.obj fields =>
    JValue.obj (mapStatusCodesWith CLAIM_STATUS CLAIM_TYPE fields)
  | other => other

/-- Shallow embedding of `DataverseClient.get_claim_by_id` (client.py
lines 107-116): builds the FetchXML filter for the claim id, queries the
`smvs_claims` entity set — issuing the HTTP GET regardless of
`settings.MOCK_MODE` — and maps status codes over the resulting rows.
(`FETCHXML_CLAIM.format(filter=...)` wraps the filter in a fixed attribute
skeleton; the skeleton is constant and is abbreviated here to the filter
fragment it carries.) -/
def get_claim_by_id (env : HttpEnv) (baseUrl claimId : String) :
    Except String (List JValue) × List Effect :=
  let filterXml := "<filter type=\"and\"><condition attribute=\"smvs_claimid\" operator=\"eq\" value=\"" ++
    claimId ++ "\" /></filter>"
  let q := fetchxml_query env baseUrl filterXml "smvs_claims"
  (q.1.map (fun rows => rows.map mapRow), q.2)

/-- Shallow embedding of `DataverseClient.update_service_line` (client.py
lines 146-178): in mock mode it acknowledges success without touching the
network; otherwise it PATCHes the service line and returns `True` exactly
when the response reports success, `False` on any error.  The update
payload does not influence the branch structure. -/
def update_service_line (env : HttpEnv) (baseUrl lineId : String) :
    Bool × List Effect :=
  let endpoint := baseUrl ++ "/api/data/v9.2/smvs_servicelines(" ++ lineId ++ ")"
  if env.mockMode then (true, [])
  else if env.httpOk then (true, [Effect.httpPatch endpoint])
  else (false, [Effect.httpPatch endpoint])

/-- C4: with the mock-mode flag set, `get_claim_by_id("C-1")` still issues
an HTTP GET to the claims entity set — the read path has no mock branch
and does not return the fixed sample records — while
`update_service_line` does honor the flag (success acknowledgment, no
transport call).  This contradicts the claim that in mock mode every
operation avoids the transports, and contradicts the configuration
comment that mock mode is "for testing without real API connections". -/
theorem c4_mock_mode_read_issues_http :
    (get_claim_by_id
        { mockMode := true, httpOk := true,
          httpBody := JValue.obj [("value", JValue.arr [])] }
        "https://org.crm.dynamics.com" "C-1").2 =
      [Effect.httpGet "https://org.crm.dynamics.com/api/data/v9.2/smvs_claims"] ∧
    update_service_line
        { mockMode := true, httpOk := true,
          httpBody := JValue.obj [("value", JValue.arr [])] }
        "https://org.crm.dynamics.com" "L-1" = (true, []) := by
  exact ⟨rfl, rfl⟩

/-! ## Synchronous submission (`run_sync`, mcp_runner.py lines 22-31) -/

/-- Outcome of `run_sync` as observed by the calling thread. -/
inductive SubmitOutcome (α : Type) where
  | result : α → SubmitOutcome α
  | timedOut : SubmitOutcome α
  | opError : String → SubmitOutcome α

/-- Discriminator: the caller saw an exception from the operation itself
(neither a result nor `TimeoutError`). -/
def SubmitOutcome.isOpError {α : Type} : SubmitOutcome α → Bool
  | SubmitOutcome.opError _ => true
  | _ => false

/-- Shallow embedding of `run_sync` (mcp_runner.py lines 22-31) for a
finite timeout.  `run_sync` hands the coroutine to the background loop and
blocks on `future.result(timeout)`, whose semantics are made explicit:
`completion` abstracts the wall-clock time at which the coroutine settles
and `outcome` how it settles (`Except.ok` with a value, or `Except.error`
with a raised exception — e.g. the `RuntimeError` that `_call_tool` raises
on `McpError`).  If the future settles within the timeout its value is
returned or its exception re-raised in the caller; otherwise
`concurrent.futures.TimeoutError` is raised. -/
def run_sync {α : Type} (completion timeout : Nat) (outcome : Except String α) :
    SubmitOutcome α :=
  if completion ≤ timeout then
    match outcome with
    | Except.ok a => SubmitOutcome.result a
    | Except.error e => SubmitOutcome.opError e
  else SubmitOutcome.timedOut

/-- C7, counterexample: an operation that settles well within the timeout
but settles by raising makes `run_sync` re-raise that exception — an
outcome that is neither the operation's normalized result nor
`TimeoutError`, contradicting the claim that no other outcome is possible
for the caller's wait. -/
theorem c7_counterexample :
    run_sync 1 30 (Except.error "RuntimeError: MCP tool error" :
        Except String JValue) =
      SubmitOutcome.opError "RuntimeError: MCP tool error" ∧
    (run_sync 1 30 (Except.error "RuntimeError: MCP tool error" :
        Except String JValue)).isOpError = true := by
  exact ⟨rfl, rfl⟩

/-- C7, amended: for a finite timeout there are exactly three outcomes —
`TimeoutError` whenever the operation has not settled within the timeout;
the operation's result whenever it settles successfully within the
timeout; and the operation's own exception, re-raised in the caller,
whenever it settles by raising within the timeout. -/
theorem c7_submit_outcomes {α : Type} (completion timeout : Nat)
    (outcome : Except String α) :
    (timeout < completion →
      run_sync completion timeout outcome = SubmitOutcome.timedOut) ∧
    (completion ≤ timeout → ∀ a, outcome = Except.ok a →
      run_sync completion timeout outcome = SubmitOutcome.result a) ∧
    (completion ≤ timeout → ∀ e, outcome = Except.error e →
      run_sync completion timeout outcome = SubmitOutcome.opError e) := by
  refine ⟨?_, ?_, ?_⟩
  · intro h
    simp [run_sync, Nat.not_le.mpr h]
  · intro h a ha
    subst ha
    simp [run_sync, h]
  · intro h e he
    subst he
    simp [run_sync, h]

/-- C7, witness for the amended statement: a timed-out wait, a successful
completion, and an in-time completion by raising. -/
theorem c7_submit_outcomes_witness :
    run_sync 30 5 (Except.ok (JValue.int 1)) = SubmitOutcome.timedOut ∧
    run_sync 2 5 (Except.ok (JValue.int 1)) = SubmitOutcome.result (JValue.int 1) ∧
    run_sync 2 5 (Except.error "boom" : Except String JValue) =
      SubmitOutcome.opError "boom" :=
  ⟨(c7_submit_outcomes 30 5 (Except.ok (JValue.int 1))).1 (by decide),
   (c7_submit_outcomes 2 5 (Except.ok (JValue.int 1))).2.1 (by decide) _ rfl,
   (c7_submit_outcomes 2 5 (Except.error "boom")).2.2 (by decide) _ rfl⟩

end ClaimOps
